import Mathlib

/-!
Shallow embedding of the escrow program's instruction processor
(src/src/processor.rs and src/src/error.rs).

Identities (`Pubkey`) are modelled as natural numbers: the program only
compares them for equality.  Account data is either raw bytes (the escrow
record account) or a parsed asset-custody token account (the external
collaborator's account type; only its `amount` field is read by the
processor).  `u64` quantities are natural numbers; the single arithmetic
operation of the program (`checked_add` on ledger balances) carries its
explicit `2 ^ 64` overflow check.

The processor is embedded as a pure function from the ordered account list
and the instruction amount to an `Outcome`: the list of requests issued to
the asset-custody collaborator (CPIs), the account states at the point the
invocation finished or aborted (the host discards them on failure), and an
optional error.  Collaborator sub-operations themselves (the token program's
execution of a request, rent lookup, derived-address computation) are
external and are represented by the emitted request values and by the
oracle parameters `findPda` and `rent_is_exempt`.
-/

abbrev Pubkey := Nat

deriving instance DecidableEq for Except

/-- Errors surfaced by the host runtime and standard program errors used in
src/src/processor.rs. -/
inductive ProgramError where
  | NotEnoughAccountKeys
  | MissingRequiredSignature
  | IncorrectProgramId
  | AccountAlreadyInitialized
  | InvalidAccountData
  | UninitializedAccount
  | Custom (code : Nat)
  deriving DecidableEq, Repr

/-- The program's own error enum, src/src/error.rs. -/
inductive EscrowError where
  | InvalidInstruction
  | NotRentExempt
  | EscrowAmountMismatch
  | AmountOverflow
  deriving DecidableEq, Repr

/-- Discriminant of the error enum (`e as u32` in src/src/error.rs). -/
def EscrowError.code : EscrowError → Nat
  | .InvalidInstruction => 0
  | .NotRentExempt => 1
  | .EscrowAmountMismatch => 2
  | .AmountOverflow => 3

/-- The `From<EscrowError> for ProgramError` conversion of src/src/error.rs:
`ProgramError::Custom(e as u32)`. -/
def EscrowError.toProgramError (e : EscrowError) : ProgramError :=
  .Custom e.code

/-- The persisted escrow record (the spec's Data Model, section 3).  The
crate's `state.rs` is not among the source files; the field list follows
the spec's table and the uses in src/src/processor.rs. -/
structure Escrow where
  is_initialized : Bool
  initializer_pubkey : Pubkey
  temp_token_account_pubkey : Pubkey
  initializer_token_to_receive_account_pubkey : Pubkey
  expected_amount : Nat
  deriving DecidableEq, Repr

/-- An asset-custody (SPL token) account as far as the processor reads it:
only its held `amount` (src/src/processor.rs lines 131-137, 189). -/
structure TokenAccount where
  amount : Nat
  deriving DecidableEq, Repr

/-- Stored data of an account: raw bytes, or a valid parsed token account of
the external asset-custody collaborator. -/
inductive AccountData where
  | raw (bytes : List Nat)
  | token (acct : TokenAccount)
  deriving DecidableEq, Repr

/-- data_len() of an account; a valid token account of the collaborator is
165 bytes long. -/
def AccountData.len : AccountData → Nat
  | .raw bs => bs.length
  | .token _ => 165

/-- Modelled from the spec: the external collaborator's token-account parse
(`TokenAccount::unpack`); it succeeds exactly on a valid token account and
fails with `InvalidAccountData` otherwise. -/
def TokenAccount.unpack : AccountData → Except ProgramError TokenAccount
  | .token t => .ok t
  | .raw _ => .error .InvalidAccountData

/-- Little-endian byte list of width `w` for `n` (truncating to `w` bytes,
as a fixed-width write does). -/
def natToLE : Nat → Nat → List Nat
  | 0, _ => []
  | w + 1, n => n % 256 :: natToLE w (n / 256)

/-- Number read back from a little-endian byte list. -/
def leToNat : List Nat → Nat
  | [] => 0
  | b :: bs => b % 256 + 256 * leToNat bs

/-- Modelled from the spec: `encode` of the Escrow Record Codec (the crate's
`state.rs` is not among the source files).  Fixed 105-byte layout of
section 3: 1-byte flag, three 32-byte identities, 8-byte little-endian
amount. -/
def Escrow.encode (e : Escrow) : List Nat :=
  (if e.is_initialized then 1 else 0) ::
    (natToLE 32 e.initializer_pubkey ++
      natToLE 32 e.temp_token_account_pubkey ++
        natToLE 32 e.initializer_token_to_receive_account_pubkey ++
          natToLE 8 e.expected_amount)

/-- Modelled from the spec: `decode_permissive` of the Escrow Record Codec
(`Escrow::unpack_unchecked`; the crate's `state.rs` is not among the source
files).  Deserializes regardless of the flag's value; a malformed buffer
(wrong length, or a flag byte other than 0 or 1) is `InvalidAccountData`. -/
def Escrow.unpack_unchecked (d : AccountData) : Except ProgramError Escrow :=
  match d with
  | .token _ => .error .InvalidAccountData
  | .raw bs =>
    match bs with
    | [] => .error .InvalidAccountData
    | flag :: rest =>
      if rest.length = 104 then
        if flag = 0 ∨ flag = 1 then
          .ok { is_initialized := flag == 1,
                initializer_pubkey := leToNat (rest.take 32),
                temp_token_account_pubkey := leToNat ((rest.drop 32).take 32),
                initializer_token_to_receive_account_pubkey :=
                  leToNat ((rest.drop 64).take 32),
                expected_amount := leToNat (rest.drop 96) }
        else .error .InvalidAccountData
      else .error .InvalidAccountData

/-- Modelled from the spec: `decode_strict` of the Escrow Record Codec
(`Escrow::unpack`): as `decode_permissive` but fails with an uninitialized
error when the flag is false. -/
def Escrow.unpack (d : AccountData) : Except ProgramError Escrow :=
  match Escrow.unpack_unchecked d with
  | .ok e => if e.is_initialized then .ok e else .error .UninitializedAccount
  | .error err => .error err

/-- Modelled from the spec: `encode`-back of the Escrow Record Codec
(`Escrow::pack`): overwrites the 105-byte buffer in place; a destination of
the wrong shape is `InvalidAccountData`. -/
def Escrow.pack (e : Escrow) (d : AccountData) : Except ProgramError AccountData :=
  match d with
  | .raw bs => if bs.length = 105 then .ok (.raw e.encode) else .error .InvalidAccountData
  | .token _ => .error .InvalidAccountData

/-- An account reference as the processor sees it. -/
structure AccountInfo where
  key : Pubkey
  is_signer : Bool
  owner : Pubkey
  lamports : Nat
  data : AccountData
  deriving DecidableEq, Repr

/-- The external asset-custody program's identity (`spl_token::id()`); the
processor only compares owners against it, so its value is arbitrary. -/
def spl_token_id : Pubkey := 7

/-- A request issued to the asset-custody collaborator (the spl_token
instruction built and then invoked by the processor).  The authority field
of `transfer` and `closeAccount` is the signing authority: the taker's key
for a real signature, or the derived Authority Delegate address for an
invoke_signed. -/
inductive CpiRequest where
  | setAuthority (token_program account new_authority current_authority : Pubkey)
  | transfer (token_program source destination authority : Pubkey) (amount : Nat)
  | closeAccount (token_program account destination authority : Pubkey)
  deriving DecidableEq, Repr

/-- Result of one processor invocation: the collaborator requests issued, the
account states at the point the invocation finished (pre-rollback when it
failed), and the error, if any. -/
structure Outcome where
  cpis : List CpiRequest
  accounts : List AccountInfo
  error : Option ProgramError
  deriving DecidableEq, Repr

/-- Processor::process_init_escrow (src/src/processor.rs lines 40-105).
`findPda` models `Pubkey::find_program_address(&[b"escrow"], program_id)`
(deterministic external derivation, returning address and bump) and
`rent_is_exempt` models the minimum-balance oracle `rent.is_exempt`. -/
def process_init_escrow (findPda : Pubkey → Pubkey × Nat)
    (rent_is_exempt : Nat → Nat → Bool)
    (accounts : List AccountInfo) (amount : Nat) (program_id : Pubkey) : Outcome :=
  match accounts with
  | [] => ⟨[], accounts, some .NotEnoughAccountKeys⟩
  | a0 :: tl0 =>
    if !a0.is_signer then ⟨[], accounts, some .MissingRequiredSignature⟩
    else
      match tl0 with
      | [] => ⟨[], accounts, some .NotEnoughAccountKeys⟩
      | a1 :: tl1 =>
        match tl1 with
        | [] => ⟨[], accounts, some .NotEnoughAccountKeys⟩
        | a2 :: tl2 =>
          if a2.owner ≠ spl_token_id then ⟨[], accounts, some .IncorrectProgramId⟩
          else
            match tl2 with
            | [] => ⟨[], accounts, some .NotEnoughAccountKeys⟩
            | a3 :: tl3 =>
              if !(rent_is_exempt a3.lamports a3.data.len) then
                ⟨[], accounts, some (EscrowError.NotRentExempt).toProgramError⟩
              else
                match Escrow.unpack_unchecked a3.data with
                | .error e => ⟨[], accounts, some e⟩
                | .ok escrow_info =>
                  if escrow_info.is_initialized then
                    ⟨[], accounts, some .AccountAlreadyInitialized⟩
                  else
                    let newRec : Escrow :=
                      { is_initialized := true,
                        initializer_pubkey := a0.key,
                        temp_token_account_pubkey := a1.key,
                        initializer_token_to_receive_account_pubkey := a2.key,
                        expected_amount := amount }
                    match Escrow.pack newRec a3.data with
                    | .error e => ⟨[], accounts, some e⟩
                    | .ok newData =>
                      let a3m := { a3 with data := newData }
                      let pda := (findPda program_id).1
                      match tl3 with
                      | [] => ⟨[], a0 :: a1 :: a2 :: a3m :: tl3, some .NotEnoughAccountKeys⟩
                      | a4 :: tl4 =>
                        ⟨[CpiRequest.setAuthority a4.key a1.key pda a0.key],
                          a0 :: a1 :: a2 :: a3m :: a4 :: tl4, none⟩

/-- Processor::process_exchange_escrow (src/src/processor.rs lines 107-234).
The nine accounts are read first; validations follow; three collaborator
requests are issued; finally the record account's ledger balance is moved
to the initializer's main account with an overflow-checked add and the
record account is zeroed. -/
def process_exchange_escrow (findPda : Pubkey → Pubkey × Nat)
    (accounts : List AccountInfo) (amount : Nat) (program_id : Pubkey) : Outcome :=
  match accounts with
  | a0 :: a1 :: a2 :: a3 :: a4 :: a5 :: a6 :: a7 :: a8 :: rest =>
    if !a0.is_signer then ⟨[], accounts, some .MissingRequiredSignature⟩
    else
      match TokenAccount.unpack a3.data with
      | .error e => ⟨[], accounts, some e⟩
      | .ok temp_token_account_info =>
        if temp_token_account_info.amount ≠ amount then
          ⟨[], accounts, some (EscrowError.EscrowAmountMismatch).toProgramError⟩
        else
          match Escrow.unpack a6.data with
          | .error e => ⟨[], accounts, some e⟩
          | .ok escrow_account_info =>
            if escrow_account_info.initializer_pubkey ≠ a4.key then
              ⟨[], accounts, some .InvalidAccountData⟩
            else if escrow_account_info.initializer_token_to_receive_account_pubkey
                ≠ a5.key then
              ⟨[], accounts, some .InvalidAccountData⟩
            else if escrow_account_info.temp_token_account_pubkey ≠ a3.key then
              ⟨[], accounts, some .InvalidAccountData⟩
            else
              let pda := (findPda program_id).1
              let cpi1 := CpiRequest.transfer a7.key a1.key a5.key a0.key
                escrow_account_info.expected_amount
              let cpi2 := CpiRequest.transfer a7.key a3.key a2.key pda
                temp_token_account_info.amount
              let cpi3 := CpiRequest.closeAccount a7.key a3.key a4.key pda
              if a4.lamports + a6.lamports < 2 ^ 64 then
                let a4m := { a4 with lamports := a4.lamports + a6.lamports }
                let a6m := { a6 with lamports := 0, data := AccountData.raw [] }
                ⟨[cpi1, cpi2, cpi3],
                  a0 :: a1 :: a2 :: a3 :: a4m :: a5 :: a6m :: a7 :: a8 :: rest, none⟩
              else
                ⟨[cpi1, cpi2, cpi3], accounts,
                  some (EscrowError.AmountOverflow).toProgramError⟩
  | _ => ⟨[], accounts, some .NotEnoughAccountKeys⟩

/-! Concrete fixtures used by witnesses and counterexamples. -/

/-- A concrete derived-address oracle: every program identity maps to the
Authority Delegate address 77 with bump 1. -/
def fpa0 : Pubkey → Pubkey × Nat := fun _ => (77, 1)

/-- A concrete minimum-balance oracle that accepts every account. -/
def rent0 : Nat → Nat → Bool := fun _ _ => true

/-- A concrete minimum-balance oracle that rejects every account. -/
def rent_none : Nat → Nat → Bool := fun _ _ => false

/-- InitEscrow fixture: a signing initializer. -/
def b0 : AccountInfo := ⟨10, true, 0, 5, .raw []⟩

/-- InitEscrow fixture: the same initializer, not signing. -/
def b0n : AccountInfo := ⟨10, false, 0, 5, .raw []⟩

/-- InitEscrow fixture: the temp custody account. -/
def b1 : AccountInfo := ⟨11, false, 3, 0, .token ⟨100⟩⟩

/-- InitEscrow fixture: the initializer's receive account, owned by the
asset-custody program. -/
def b2 : AccountInfo := ⟨12, false, spl_token_id, 0, .raw []⟩

/-- InitEscrow fixture: the zeroed, pre-funded escrow record account. -/
def b3 : AccountInfo := ⟨13, false, 9, 1000, .raw (List.replicate 105 0)⟩

/-- InitEscrow fixture: the token program account. -/
def b4 : AccountInfo := ⟨17, false, 0, 0, .raw []⟩

/-- Exchange fixture: the signing taker. -/
def c0 : AccountInfo := ⟨20, true, 0, 5, .raw []⟩

/-- Exchange fixture: the same taker, not signing. -/
def c0n : AccountInfo := ⟨20, false, 0, 5, .raw []⟩

/-- Exchange fixture: the taker's sending asset account. -/
def c1 : AccountInfo := ⟨21, false, 0, 0, .raw []⟩

/-- Exchange fixture: the taker's receive account. -/
def c2 : AccountInfo := ⟨22, false, 0, 0, .raw []⟩

/-- Exchange fixture: the custody account, holding 100 units. -/
def c3 : AccountInfo := ⟨13, false, 0, 0, .token ⟨100⟩⟩

/-- Exchange fixture: the initializer's main account. -/
def c4 : AccountInfo := ⟨14, false, 0, 50, .raw []⟩

/-- Exchange fixture: the initializer's receive account. -/
def c5 : AccountInfo := ⟨15, false, 0, 0, .raw []⟩

/-- Exchange fixture: the stored escrow record (expects 50 counter-units). -/
def escRecord : Escrow := ⟨true, 14, 13, 15, 50⟩

/-- Exchange fixture: the escrow record account. -/
def c6 : AccountInfo := ⟨16, false, 0, 1000, .raw escRecord.encode⟩

/-- Exchange fixture: the token program account. -/
def c7 : AccountInfo := ⟨17, false, 0, 0, .raw []⟩

/-- Exchange fixture: the Authority Delegate reference account. -/
def c8 : AccountInfo := ⟨77, false, 0, 0, .raw []⟩

/-- Exchange fixture: the nine accounts in wire order. -/
def exAccounts : List AccountInfo := [c0, c1, c2, c3, c4, c5, c6, c7, c8]

/-! Helper lemmas shared by the claim theorems. -/

/-- A buffer the permissive decoder accepts is a 105-byte raw buffer, so
encoding any record back into it succeeds. -/
theorem Escrow.pack_of_unpack (e r : Escrow) (d : AccountData)
    (h : Escrow.unpack_unchecked d = .ok r) :
    Escrow.pack e d = .ok (.raw e.encode) := by
  cases d with
  | token t => simp [Escrow.unpack_unchecked] at h
  | raw bs =>
    cases bs with
    | nil => simp [Escrow.unpack_unchecked] at h
    | cons flag rest =>
      by_cases hl : rest.length = 104
      · simp [Escrow.pack, List.length_cons, hl]
      · simp [Escrow.unpack_unchecked, hl] at h

/-- Exchange with fewer than nine accounts fails with the missing-account
error before anything else happens. -/
theorem exchange_short (fpa : Pubkey → Pubkey × Nat) (accounts : List AccountInfo)
    (amount : Nat) (pid : Pubkey) (h : accounts.length < 9) :
    process_exchange_escrow fpa accounts amount pid
      = ⟨[], accounts, some .NotEnoughAccountKeys⟩ := by
  rcases accounts with _ | ⟨a0, _ | ⟨a1, _ | ⟨a2, _ | ⟨a3, _ | ⟨a4, _ | ⟨a5, _ |
    ⟨a6, _ | ⟨a7, _ | ⟨a8, rest⟩⟩⟩⟩⟩⟩⟩⟩⟩ <;>
    first
      | rfl
      | (exfalso; simp [List.length_cons] at h; omega)

/-- Characterization of a successful InitEscrow run: the five accounts that
were read, the checks that necessarily passed, the single
authority-reassignment request, and the record written back. -/
theorem init_ok_inv (fpa : Pubkey → Pubkey × Nat) (rent : Nat → Nat → Bool)
    (accounts : List AccountInfo) (amount : Nat) (pid : Pubkey)
    (cp : List CpiRequest) (acc : List AccountInfo)
    (h : process_init_escrow fpa rent accounts amount pid = ⟨cp, acc, none⟩) :
    ∃ a0 a1 a2 a3 a4 tl4 r,
      accounts = a0 :: a1 :: a2 :: a3 :: a4 :: tl4 ∧
      a0.is_signer = true ∧
      a2.owner = spl_token_id ∧
      rent a3.lamports a3.data.len = true ∧
      Escrow.unpack_unchecked a3.data = .ok r ∧
      r.is_initialized = false ∧
      cp = [CpiRequest.setAuthority a4.key a1.key (fpa pid).1 a0.key] ∧
      acc = a0 :: a1 :: a2 ::
        { a3 with data := .raw (Escrow.encode ⟨true, a0.key, a1.key, a2.key, amount⟩) } ::
        a4 :: tl4 := by
  rcases accounts with _ | ⟨a0, tl0⟩
  · simp [process_init_escrow] at h
  cases h0 : a0.is_signer with
  | false => simp [process_init_escrow, h0] at h
  | true =>
  rcases tl0 with _ | ⟨a1, tl1⟩
  · simp [process_init_escrow, h0] at h
  rcases tl1 with _ | ⟨a2, tl2⟩
  · simp [process_init_escrow, h0] at h
  by_cases h2 : a2.owner = spl_token_id
  case neg => simp [process_init_escrow, h0, h2] at h
  rcases tl2 with _ | ⟨a3, tl3⟩
  · simp [process_init_escrow, h0, h2] at h
  cases h3 : rent a3.lamports a3.data.len with
  | false => simp [process_init_escrow, h0, h2, h3] at h
  | true =>
  cases hu : Escrow.unpack_unchecked a3.data with
  | error e => simp [process_init_escrow, h0, h2, h3, hu] at h
  | ok r =>
  cases hi : r.is_initialized with
  | true => simp [process_init_escrow, h0, h2, h3, hu, hi] at h
  | false =>
  have hp := Escrow.pack_of_unpack
    ⟨true, a0.key, a1.key, a2.key, amount⟩ r a3.data hu
  rcases tl3 with _ | ⟨a4, tl4⟩
  · simp [process_init_escrow, h0, h2, h3, hu, hi, hp] at h
  · simp [process_init_escrow, h0, h2, h3, hu, hi, hp] at h
    exact ⟨a0, a1, a2, a3, a4, tl4, r, rfl, h0, h2, h3, hu, hi,
      h.1.symm, h.2.symm⟩

/-- Characterization of a successful Exchange run: the checks that
necessarily passed, the three collaborator requests in order, and the final
account states. -/
theorem exchange_ok_inv (fpa : Pubkey → Pubkey × Nat)
    (a0 a1 a2 a3 a4 a5 a6 a7 a8 : AccountInfo) (rest : List AccountInfo)
    (amount : Nat) (pid : Pubkey) (cp : List CpiRequest) (acc : List AccountInfo)
    (h : process_exchange_escrow fpa
        (a0 :: a1 :: a2 :: a3 :: a4 :: a5 :: a6 :: a7 :: a8 :: rest) amount pid
      = ⟨cp, acc, none⟩) :
    ∃ t r,
      a0.is_signer = true ∧
      TokenAccount.unpack a3.data = .ok t ∧
      t.amount = amount ∧
      Escrow.unpack a6.data = .ok r ∧
      r.initializer_pubkey = a4.key ∧
      r.initializer_token_to_receive_account_pubkey = a5.key ∧
      r.temp_token_account_pubkey = a3.key ∧
      a4.lamports + a6.lamports < 2 ^ 64 ∧
      cp = [CpiRequest.transfer a7.key a1.key a5.key a0.key r.expected_amount,
            CpiRequest.transfer a7.key a3.key a2.key (fpa pid).1 t.amount,
            CpiRequest.closeAccount a7.key a3.key a4.key (fpa pid).1] ∧
      acc = a0 :: a1 :: a2 :: a3 ::
        { a4 with lamports := a4.lamports + a6.lamports } :: a5 ::
        { a6 with lamports := 0, data := .raw [] } :: a7 :: a8 :: rest := by
  cases h0 : a0.is_signer with
  | false => simp [process_exchange_escrow, h0] at h
  | true =>
  cases ht : TokenAccount.unpack a3.data with
  | error e => simp [process_exchange_escrow, h0, ht] at h
  | ok t =>
  by_cases ha : t.amount = amount
  case neg => simp [process_exchange_escrow, h0, ht, ha] at h
  cases hr : Escrow.unpack a6.data with
  | error e => simp [process_exchange_escrow, h0, ht, ha, hr] at h
  | ok r =>
  by_cases hk1 : r.initializer_pubkey = a4.key
  case neg => simp [process_exchange_escrow, h0, ht, ha, hr, hk1] at h
  by_cases hk2 : r.initializer_token_to_receive_account_pubkey = a5.key
  case neg => simp [process_exchange_escrow, h0, ht, ha, hr, hk1, hk2] at h
  by_cases hk3 : r.temp_token_account_pubkey = a3.key
  case neg => simp [process_exchange_escrow, h0, ht, ha, hr, hk1, hk2, hk3] at h
  by_cases hov : a4.lamports + a6.lamports < 2 ^ 64
  case neg =>
    rw [show (2 : Nat) ^ 64 = 18446744073709551616 by norm_num] at hov
    simp [process_exchange_escrow, h0, ht, ha, hr, hk1, hk2, hk3, hov] at h
  have hov2 := hov
  rw [show (2 : Nat) ^ 64 = 18446744073709551616 by norm_num] at hov2
  simp [process_exchange_escrow, h0, ht, ha, hr, hk1, hk2, hk3, hov2] at h
  refine ⟨t, r, rfl, rfl, ha, rfl, hk1, hk2, hk3, hov, ?_, h.2.symm⟩
  rw [ha]
  exact h.1.symm

/-! Claim theorems. -/

/-- C1: in a successful Exchange, the transfer of the counter-asset from the
taker's sending account to the initializer's receive account (the first
request issued, authorized by the taker's key) always carries the escrow
record's expected_amount — never the caller-supplied amount, which only had
to pass the equality check against the custody balance. -/
theorem C1_exchange_transfers_expected_amount (fpa : Pubkey → Pubkey × Nat)
    (a0 a1 a2 a3 a4 a5 a6 a7 a8 : AccountInfo) (rest : List AccountInfo)
    (amount : Nat) (pid : Pubkey) (cp : List CpiRequest) (acc : List AccountInfo)
    (r : Escrow)
    (h : process_exchange_escrow fpa
        (a0 :: a1 :: a2 :: a3 :: a4 :: a5 :: a6 :: a7 :: a8 :: rest) amount pid
      = ⟨cp, acc, none⟩)
    (hr : Escrow.unpack a6.data = .ok r) :
    cp.head? = some (CpiRequest.transfer a7.key a1.key a5.key a0.key
      r.expected_amount) := by
  obtain ⟨t, r2, -, -, -, hr2, -, -, -, -, hcp, -⟩ :=
    exchange_ok_inv fpa a0 a1 a2 a3 a4 a5 a6 a7 a8 rest amount pid cp acc h
  rw [hr] at hr2
  injection hr2 with hr3
  subst hr3
  simp [hcp]

/-- C1 witness: a concrete successful Exchange whose record expects 50 while
the caller supplied 100 (the custody balance) transfers exactly 50 units to
the initializer's receive account. -/
theorem C1_witness :
    (process_exchange_escrow fpa0 exAccounts 100 9).cpis.head?
      = some (CpiRequest.transfer 17 21 15 20 50) := by
  have h : process_exchange_escrow fpa0
      (c0 :: c1 :: c2 :: c3 :: c4 :: c5 :: c6 :: c7 :: c8 :: ([] : List AccountInfo))
      100 9
    = ⟨[CpiRequest.transfer 17 21 15 20 50,
        CpiRequest.transfer 17 13 22 77 100,
        CpiRequest.closeAccount 17 13 14 77],
       [c0, c1, c2, c3, { c4 with lamports := 1050 }, c5,
        { c6 with lamports := 0, data := .raw [] }, c7, c8], none⟩ := by decide
  have hw := C1_exchange_transfers_expected_amount fpa0 c0 c1 c2 c3 c4 c5 c6 c7 c8
    [] 100 9 _ _ escRecord h (by decide)
  show (process_exchange_escrow fpa0
      (c0 :: c1 :: c2 :: c3 :: c4 :: c5 :: c6 :: c7 :: c8 :: ([] : List AccountInfo))
      100 9).cpis.head? = some (CpiRequest.transfer 17 21 15 20 50)
  rw [h]
  exact hw

/-- C2: a successful InitEscrow writes the record back flagged initialized,
with the initializer, temp custody and receive identities equal to the keys
of the correspondingly supplied accounts and expected_amount equal to the
instruction amount, and issues exactly one authority-reassignment request
moving control of the custody account from the initializer to the derived
Authority Delegate address. -/
theorem C2_init_success_effects (fpa : Pubkey → Pubkey × Nat)
    (rent : Nat → Nat → Bool) (accounts : List AccountInfo) (amount : Nat)
    (pid : Pubkey) (cp : List CpiRequest) (acc : List AccountInfo)
    (h : process_init_escrow fpa rent accounts amount pid = ⟨cp, acc, none⟩) :
    ∃ a0 a1 a2 a3 a4 tl4,
      accounts = a0 :: a1 :: a2 :: a3 :: a4 :: tl4 ∧
      acc = a0 :: a1 :: a2 ::
        { a3 with data := .raw (Escrow.encode
            ⟨true, a0.key, a1.key, a2.key, amount⟩) } :: a4 :: tl4 ∧
      cp = [CpiRequest.setAuthority a4.key a1.key (fpa pid).1 a0.key] := by
  obtain ⟨a0, a1, a2, a3, a4, tl4, r, hacc, -, -, -, -, -, hcp, hupd⟩ :=
    init_ok_inv fpa rent accounts amount pid cp acc h
  exact ⟨a0, a1, a2, a3, a4, tl4, hacc, hupd, hcp⟩

/-- C2 witness: a concrete successful InitEscrow populates the record with
the three supplied keys and the amount 42 and issues the single
authority-reassignment request to the derived address 77. -/
theorem C2_witness :
    ∃ a0 a1 a2 a3 a4 tl4,
      ([b0, b1, b2, b3, b4] : List AccountInfo) = a0 :: a1 :: a2 :: a3 :: a4 :: tl4 ∧
      (process_init_escrow fpa0 rent0 [b0, b1, b2, b3, b4] 42 9).accounts
        = a0 :: a1 :: a2 ::
          { a3 with data := .raw (Escrow.encode
              ⟨true, a0.key, a1.key, a2.key, 42⟩) } :: a4 :: tl4 ∧
      (process_init_escrow fpa0 rent0 [b0, b1, b2, b3, b4] 42 9).cpis
        = [CpiRequest.setAuthority a4.key a1.key (fpa0 9).1 a0.key] := by
  have h : process_init_escrow fpa0 rent0 [b0, b1, b2, b3, b4] 42 9
    = ⟨[CpiRequest.setAuthority 17 11 77 10],
       [b0, b1, b2,
        { b3 with data := .raw (Escrow.encode ⟨true, 10, 11, 12, 42⟩) }, b4],
       none⟩ := by decide
  obtain ⟨a0, a1, a2, a3, a4, tl4, h1, h2, h3⟩ :=
    C2_init_success_effects fpa0 rent0 [b0, b1, b2, b3, b4] 42 9 _ _ h
  exact ⟨a0, a1, a2, a3, a4, tl4, h1, by rw [h]; exact h2, by rw [h]; exact h3⟩

/-- C3 counterexample: an Exchange whose custody balance (100) differs from
the caller-supplied amount (7) but whose taker does not sign fails with
MissingRequiredSignature, not with EscrowAmountMismatch, so the claim is
false as a statement about every mismatching invocation. -/
theorem C3_counterexample :
    TokenAccount.unpack c3.data = .ok ⟨100⟩ ∧
    (100 : Nat) ≠ 7 ∧
    process_exchange_escrow fpa0 [c0n, c1, c2, c3, c4, c5, c6, c7, c8] 7 9
      = ⟨[], [c0n, c1, c2, c3, c4, c5, c6, c7, c8],
          some .MissingRequiredSignature⟩ ∧
    (some ProgramError.MissingRequiredSignature
      ≠ some (EscrowError.EscrowAmountMismatch).toProgramError) := by
  decide

/-- C3 (amended): once the nine accounts are read, the taker signs and the
custody account parses as a token account, an Exchange whose custody
balance differs from the caller-supplied amount fails with
EscrowAmountMismatch and no asset transfers are issued. -/
theorem C3_amount_mismatch (fpa : Pubkey → Pubkey × Nat)
    (a0 a1 a2 a3 a4 a5 a6 a7 a8 : AccountInfo) (rest : List AccountInfo)
    (amount : Nat) (pid : Pubkey) (t : TokenAccount)
    (hs : a0.is_signer = true)
    (ht : TokenAccount.unpack a3.data = .ok t)
    (hne : t.amount ≠ amount) :
    process_exchange_escrow fpa
        (a0 :: a1 :: a2 :: a3 :: a4 :: a5 :: a6 :: a7 :: a8 :: rest) amount pid
      = ⟨[], a0 :: a1 :: a2 :: a3 :: a4 :: a5 :: a6 :: a7 :: a8 :: rest,
          some (EscrowError.EscrowAmountMismatch).toProgramError⟩ := by
  simp [process_exchange_escrow, hs, ht, hne]

/-- C3 witness: a concrete signing Exchange at caller amount 7 against a
custody balance of 100 fails with EscrowAmountMismatch and issues no
requests. -/
theorem C3_witness :
    process_exchange_escrow fpa0 [c0, c1, c2, c3, c4, c5, c6, c7, c8] 7 9
      = ⟨[], [c0, c1, c2, c3, c4, c5, c6, c7, c8],
          some (EscrowError.EscrowAmountMismatch).toProgramError⟩ :=
  C3_amount_mismatch fpa0 c0 c1 c2 c3 c4 c5 c6 c7 c8 [] 7 9 ⟨100⟩
    (by decide) (by decide) (by decide)

/-- C4 counterexample fixture: a stored record whose initializer identity
(99) does not match the supplied initializer main account. -/
def escRecordBad : Escrow := ⟨true, 99, 13, 15, 50⟩

/-- C4 counterexample fixture: the escrow record account holding the
mismatching record. -/
def c6b : AccountInfo := ⟨16, false, 0, 1000, .raw escRecordBad.encode⟩

/-- C4 counterexample: an Exchange whose record's initializer identity (99)
differs from the supplied initializer main account (key 14) but whose
caller amount (7) also differs from the custody balance (100) fails with
EscrowAmountMismatch, not with InvalidAccountData, so the claim is false as
a statement about every identity-mismatching invocation. -/
theorem C4_counterexample :
    Escrow.unpack c6b.data = .ok ⟨true, 99, 13, 15, 50⟩ ∧
    (99 : Nat) ≠ c4.key ∧
    process_exchange_escrow fpa0 [c0, c1, c2, c3, c4, c5, c6b, c7, c8] 7 9
      = ⟨[], [c0, c1, c2, c3, c4, c5, c6b, c7, c8],
          some (EscrowError.EscrowAmountMismatch).toProgramError⟩ ∧
    (some (EscrowError.EscrowAmountMismatch).toProgramError
      ≠ some ProgramError.InvalidAccountData) := by
  decide

/-- C4 (amended): once the nine accounts are read, the taker signs, the
custody balance equals the caller amount and the record decodes strictly,
an Exchange where any of the record's initializer, receive or custody
identity differs from the correspondingly supplied account fails with
InvalidAccountData and no asset transfers are issued. -/
theorem C4_identity_mismatch (fpa : Pubkey → Pubkey × Nat)
    (a0 a1 a2 a3 a4 a5 a6 a7 a8 : AccountInfo) (rest : List AccountInfo)
    (amount : Nat) (pid : Pubkey) (t : TokenAccount) (r : Escrow)
    (hs : a0.is_signer = true)
    (ht : TokenAccount.unpack a3.data = .ok t)
    (ha : t.amount = amount)
    (hr : Escrow.unpack a6.data = .ok r)
    (hbad : r.initializer_pubkey ≠ a4.key ∨
      r.initializer_token_to_receive_account_pubkey ≠ a5.key ∨
      r.temp_token_account_pubkey ≠ a3.key) :
    process_exchange_escrow fpa
        (a0 :: a1 :: a2 :: a3 :: a4 :: a5 :: a6 :: a7 :: a8 :: rest) amount pid
      = ⟨[], a0 :: a1 :: a2 :: a3 :: a4 :: a5 :: a6 :: a7 :: a8 :: rest,
          some .InvalidAccountData⟩ := by
  rcases hbad with hb | hb | hb
  · simp [process_exchange_escrow, hs, ht, ha, hr, hb]
  · by_cases h1 : r.initializer_pubkey = a4.key
    · simp [process_exchange_escrow, hs, ht, ha, hr, h1, hb]
    · simp [process_exchange_escrow, hs, ht, ha, hr, h1]
  · by_cases h1 : r.initializer_pubkey = a4.key
    · by_cases h2 : r.initializer_token_to_receive_account_pubkey = a5.key
      · simp [process_exchange_escrow, hs, ht, ha, hr, h1, h2, hb]
      · simp [process_exchange_escrow, hs, ht, ha, hr, h1, h2]
    · simp [process_exchange_escrow, hs, ht, ha, hr, h1]

/-- C4 witness: a concrete Exchange at the matching amount 100 against the
mismatching record fails with InvalidAccountData and issues no requests. -/
theorem C4_witness :
    process_exchange_escrow fpa0 [c0, c1, c2, c3, c4, c5, c6b, c7, c8] 100 9
      = ⟨[], [c0, c1, c2, c3, c4, c5, c6b, c7, c8],
          some .InvalidAccountData⟩ :=
  C4_identity_mismatch fpa0 c0 c1 c2 c3 c4 c5 c6b c7 c8 [] 100 9 ⟨100⟩
    ⟨true, 99, 13, 15, 50⟩ (by decide) (by decide) (by decide) (by decide)
    (Or.inl (by decide))

/-- C5: InitEscrow validates in exactly this fail-fast order — signer check,
then receive-account ownership (IncorrectProgramId), then minimum balance
(NotRentExempt), then permissive decode with rejection as
AccountAlreadyInitialized when the flag is already set — and the first
failing check aborts with no requests issued and the accounts unchanged,
whatever the later inputs hold. -/
theorem C5_init_validation_order (fpa : Pubkey → Pubkey × Nat)
    (rent : Nat → Nat → Bool) (a0 a1 a2 a3 : AccountInfo) (amount : Nat)
    (pid : Pubkey) :
    (∀ tl, a0.is_signer = false →
      process_init_escrow fpa rent (a0 :: tl) amount pid
        = ⟨[], a0 :: tl, some .MissingRequiredSignature⟩) ∧
    (∀ tl, a0.is_signer = true → a2.owner ≠ spl_token_id →
      process_init_escrow fpa rent (a0 :: a1 :: a2 :: tl) amount pid
        = ⟨[], a0 :: a1 :: a2 :: tl, some .IncorrectProgramId⟩) ∧
    (∀ tl, a0.is_signer = true → a2.owner = spl_token_id →
      rent a3.lamports a3.data.len = false →
      process_init_escrow fpa rent (a0 :: a1 :: a2 :: a3 :: tl) amount pid
        = ⟨[], a0 :: a1 :: a2 :: a3 :: tl,
            some (EscrowError.NotRentExempt).toProgramError⟩) ∧
    (∀ tl r, a0.is_signer = true → a2.owner = spl_token_id →
      rent a3.lamports a3.data.len = true →
      Escrow.unpack_unchecked a3.data = .ok r → r.is_initialized = true →
      process_init_escrow fpa rent (a0 :: a1 :: a2 :: a3 :: tl) amount pid
        = ⟨[], a0 :: a1 :: a2 :: a3 :: tl, some .AccountAlreadyInitialized⟩) := by
  refine ⟨?_, ?_, ?_, ?_⟩
  · intro tl h0
    simp [process_init_escrow, h0]
  · intro tl h0 h2
    simp [process_init_escrow, h0, h2]
  · intro tl h0 h2 h3
    simp [process_init_escrow, h0, h2, h3]
  · intro tl r h0 h2 h3 hu hi
    simp [process_init_escrow, h0, h2, h3, hu, hi]

/-- C5 witness: the non-signer and the already-initialized cases at concrete
inputs — the first aborts with MissingRequiredSignature, and an InitEscrow
against an already-flagged record (reusing the Exchange fixture's record
account) aborts with AccountAlreadyInitialized. -/
theorem C5_witness :
    process_init_escrow fpa0 rent0 [b0n, b1, b2, b3, b4] 42 9
      = ⟨[], [b0n, b1, b2, b3, b4], some .MissingRequiredSignature⟩ ∧
    process_init_escrow fpa0 rent0 [b0, b1, b2, c6, b4] 42 9
      = ⟨[], [b0, b1, b2, c6, b4], some .AccountAlreadyInitialized⟩ :=
  ⟨(C5_init_validation_order fpa0 rent0 b0n b1 b2 b3 42 9).1 [b1, b2, b3, b4]
      (by decide),
   (C5_init_validation_order fpa0 rent0 b0 b1 b2 c6 42 9).2.2.2 [b4] escRecord
      (by decide) (by decide) (by decide) (by decide) (by decide)⟩

/-- C6: an InitEscrow whose initializer account does not sign fails with
MissingRequiredSignature, issues no requests and leaves every account —
in particular the record account's bytes — unchanged. -/
theorem C6_init_nonsigner_unchanged (fpa : Pubkey → Pubkey × Nat)
    (rent : Nat → Nat → Bool) (a0 : AccountInfo) (rest : List AccountInfo)
    (amount : Nat) (pid : Pubkey) (h : a0.is_signer = false) :
    process_init_escrow fpa rent (a0 :: rest) amount pid
      = ⟨[], a0 :: rest, some .MissingRequiredSignature⟩ := by
  simp [process_init_escrow, h]

/-- C6 witness: the concrete non-signing InitEscrow fails with
MissingRequiredSignature and the record account b3 is returned unchanged. -/
theorem C6_witness :
    process_init_escrow fpa0 rent0 [b0n, b1, b2, b3, b4] 42 9
      = ⟨[], [b0n, b1, b2, b3, b4], some .MissingRequiredSignature⟩ :=
  C6_init_nonsigner_unchanged fpa0 rent0 b0n [b1, b2, b3, b4] 42 9 (by decide)

/-- C7: in Exchange's record-reclaim step the record account's ledger
balance is added to the initializer's main account with overflow-checked
addition — failing with AmountOverflow when the sum leaves the 64-bit range
— and on success the record account's balance is set to zero and its stored
data emptied. -/
theorem C7_reclaim_overflow_checked (fpa : Pubkey → Pubkey × Nat)
    (a0 a1 a2 a3 a4 a5 a6 a7 a8 : AccountInfo) (rest : List AccountInfo)
    (amount : Nat) (pid : Pubkey) (t : TokenAccount) (r : Escrow)
    (hs : a0.is_signer = true)
    (ht : TokenAccount.unpack a3.data = .ok t)
    (ha : t.amount = amount)
    (hr : Escrow.unpack a6.data = .ok r)
    (h1 : r.initializer_pubkey = a4.key)
    (h2 : r.initializer_token_to_receive_account_pubkey = a5.key)
    (h3 : r.temp_token_account_pubkey = a3.key) :
    (2 ^ 64 ≤ a4.lamports + a6.lamports →
      process_exchange_escrow fpa
          (a0 :: a1 :: a2 :: a3 :: a4 :: a5 :: a6 :: a7 :: a8 :: rest) amount pid
        = ⟨[CpiRequest.transfer a7.key a1.key a5.key a0.key r.expected_amount,
            CpiRequest.transfer a7.key a3.key a2.key (fpa pid).1 t.amount,
            CpiRequest.closeAccount a7.key a3.key a4.key (fpa pid).1],
           a0 :: a1 :: a2 :: a3 :: a4 :: a5 :: a6 :: a7 :: a8 :: rest,
           some (EscrowError.AmountOverflow).toProgramError⟩) ∧
    (a4.lamports + a6.lamports < 2 ^ 64 →
      process_exchange_escrow fpa
          (a0 :: a1 :: a2 :: a3 :: a4 :: a5 :: a6 :: a7 :: a8 :: rest) amount pid
        = ⟨[CpiRequest.transfer a7.key a1.key a5.key a0.key r.expected_amount,
            CpiRequest.transfer a7.key a3.key a2.key (fpa pid).1 t.amount,
            CpiRequest.closeAccount a7.key a3.key a4.key (fpa pid).1],
           a0 :: a1 :: a2 :: a3 ::
             { a4 with lamports := a4.lamports + a6.lamports } :: a5 ::
             { a6 with lamports := 0, data := AccountData.raw [] } :: a7 :: a8 :: rest,
           none⟩) := by
  constructor
  · intro hov
    have hov2 := Nat.not_lt.mpr hov
    rw [show (2 : Nat) ^ 64 = 18446744073709551616 by norm_num] at hov2
    simp [process_exchange_escrow, hs, ht, ha, hr, h1, h2, h3, hov2]
  · intro hov
    have hov2 := hov
    rw [show (2 : Nat) ^ 64 = 18446744073709551616 by norm_num] at hov2
    simp [process_exchange_escrow, hs, ht, ha, hr, h1, h2, h3, hov2]

/-- C7 witness fixture: an initializer main account whose balance is within
500 of the 64-bit limit, so reclaiming the record's 1000 overflows. -/
def c4big : AccountInfo := ⟨14, false, 0, 2 ^ 64 - 500, .raw []⟩

/-- C7 witness: the concrete Exchange succeeds with the record account
zeroed and emptied and the reclaimed balance added; with an initializer
main balance near the 64-bit limit the same Exchange fails with
AmountOverflow. -/
theorem C7_witness :
    process_exchange_escrow fpa0 [c0, c1, c2, c3, c4, c5, c6, c7, c8] 100 9
      = ⟨[CpiRequest.transfer 17 21 15 20 50,
          CpiRequest.transfer 17 13 22 77 100,
          CpiRequest.closeAccount 17 13 14 77],
         [c0, c1, c2, c3, { c4 with lamports := 1050 }, c5,
          { c6 with lamports := 0, data := AccountData.raw [] }, c7, c8],
         none⟩ ∧
    process_exchange_escrow fpa0 [c0, c1, c2, c3, c4big, c5, c6, c7, c8] 100 9
      = ⟨[CpiRequest.transfer 17 21 15 20 50,
          CpiRequest.transfer 17 13 22 77 100,
          CpiRequest.closeAccount 17 13 14 77],
         [c0, c1, c2, c3, c4big, c5, c6, c7, c8],
         some (EscrowError.AmountOverflow).toProgramError⟩ :=
  ⟨(C7_reclaim_overflow_checked fpa0 c0 c1 c2 c3 c4 c5 c6 c7 c8 [] 100 9
      ⟨100⟩ escRecord (by decide) (by decide) (by decide) (by decide)
      (by decide) (by decide) (by decide)).2 (by norm_num [c4, c6]),
   (C7_reclaim_overflow_checked fpa0 c0 c1 c2 c3 c4big c5 c6 c7 c8 [] 100 9
      ⟨100⟩ escRecord (by decide) (by decide) (by decide) (by decide)
      (by decide) (by decide) (by decide)).1 (by norm_num [c4big, c6])⟩

/-- Helper: the outcome's error and requests of an InitEscrow do not depend
on accounts past the fifth — they are never read. -/
theorem init_tail_irrelevant (fpa : Pubkey → Pubkey × Nat)
    (rent : Nat → Nat → Bool) (a0 a1 a2 a3 a4 : AccountInfo)
    (rest rest2 : List AccountInfo) (amount : Nat) (pid : Pubkey) :
    (process_init_escrow fpa rent (a0 :: a1 :: a2 :: a3 :: a4 :: rest) amount pid).error
      = (process_init_escrow fpa rent (a0 :: a1 :: a2 :: a3 :: a4 :: rest2) amount pid).error ∧
    (process_init_escrow fpa rent (a0 :: a1 :: a2 :: a3 :: a4 :: rest) amount pid).cpis
      = (process_init_escrow fpa rent (a0 :: a1 :: a2 :: a3 :: a4 :: rest2) amount pid).cpis := by
  cases h0 : a0.is_signer with
  | false => simp [process_init_escrow, h0]
  | true =>
  by_cases h2 : a2.owner = spl_token_id
  case neg => simp [process_init_escrow, h0, h2]
  cases h3 : rent a3.lamports a3.data.len with
  | false => simp [process_init_escrow, h0, h2, h3]
  | true =>
  cases hu : Escrow.unpack_unchecked a3.data with
  | error e => simp [process_init_escrow, h0, h2, h3, hu]
  | ok r =>
  cases hi : r.is_initialized with
  | true => simp [process_init_escrow, h0, h2, h3, hu, hi]
  | false =>
  have hp := Escrow.pack_of_unpack
    ⟨true, a0.key, a1.key, a2.key, amount⟩ r a3.data hu
  simp [process_init_escrow, h0, h2, h3, hu, hi, hp]

/-- Helper: the outcome's error and requests of an Exchange do not depend on
accounts past the ninth — they are never read. -/
theorem exchange_tail_irrelevant (fpa : Pubkey → Pubkey × Nat)
    (a0 a1 a2 a3 a4 a5 a6 a7 a8 : AccountInfo) (rest rest2 : List AccountInfo)
    (amount : Nat) (pid : Pubkey) :
    (process_exchange_escrow fpa
        (a0 :: a1 :: a2 :: a3 :: a4 :: a5 :: a6 :: a7 :: a8 :: rest) amount pid).error
      = (process_exchange_escrow fpa
        (a0 :: a1 :: a2 :: a3 :: a4 :: a5 :: a6 :: a7 :: a8 :: rest2) amount pid).error ∧
    (process_exchange_escrow fpa
        (a0 :: a1 :: a2 :: a3 :: a4 :: a5 :: a6 :: a7 :: a8 :: rest) amount pid).cpis
      = (process_exchange_escrow fpa
        (a0 :: a1 :: a2 :: a3 :: a4 :: a5 :: a6 :: a7 :: a8 :: rest2) amount pid).cpis := by
  cases h0 : a0.is_signer with
  | false => simp [process_exchange_escrow, h0]
  | true =>
  cases ht : TokenAccount.unpack a3.data with
  | error e => simp [process_exchange_escrow, h0, ht]
  | ok t =>
  by_cases ha : t.amount = amount
  case neg => simp [process_exchange_escrow, h0, ht, ha]
  cases hr : Escrow.unpack a6.data with
  | error e => simp [process_exchange_escrow, h0, ht, ha, hr]
  | ok r =>
  by_cases hk1 : r.initializer_pubkey = a4.key
  case neg => simp [process_exchange_escrow, h0, ht, ha, hr, hk1]
  by_cases hk2 : r.initializer_token_to_receive_account_pubkey = a5.key
  case neg => simp [process_exchange_escrow, h0, ht, ha, hr, hk1, hk2]
  by_cases hk3 : r.temp_token_account_pubkey = a3.key
  case neg => simp [process_exchange_escrow, h0, ht, ha, hr, hk1, hk2, hk3]
  by_cases hov : a4.lamports + a6.lamports < 2 ^ 64
  case neg =>
    rw [show (2 : Nat) ^ 64 = 18446744073709551616 by norm_num] at hov
    simp [process_exchange_escrow, h0, ht, ha, hr, hk1, hk2, hk3, hov]
  have hov2 := hov
  rw [show (2 : Nat) ^ 64 = 18446744073709551616 by norm_num] at hov2
  simp [process_exchange_escrow, h0, ht, ha, hr, hk1, hk2, hk3, hov2]

/-- C8 counterexample: a concrete InitEscrow succeeds with only five
accounts, so the account list is not the claimed seven-account contract. -/
theorem C8_counterexample :
    (process_init_escrow fpa0 rent0 [b0, b1, b2, b3, b4] 42 9).error = none ∧
    ([b0, b1, b2, b3, b4] : List AccountInfo).length = 5 ∧
    (5 : Nat) ≠ 7 := by
  decide

/-- C8 (amended): the account list is a positional wire contract in the
order the code reads it — InitEscrow consumes exactly 5 accounts
(initializer, temp custody, receive, escrow record, token program) and
Exchange exactly 9: success needs at least that many, and accounts past
that many never influence the error or the issued requests. -/
theorem C8_account_counts :
    (∀ (fpa : Pubkey → Pubkey × Nat) (rent : Nat → Nat → Bool)
        (accounts : List AccountInfo) (amount : Nat) (pid : Pubkey)
        (cp : List CpiRequest) (acc : List AccountInfo),
      process_init_escrow fpa rent accounts amount pid = ⟨cp, acc, none⟩ →
      5 ≤ accounts.length) ∧
    (∀ (fpa : Pubkey → Pubkey × Nat) (accounts : List AccountInfo)
        (amount : Nat) (pid : Pubkey) (cp : List CpiRequest)
        (acc : List AccountInfo),
      process_exchange_escrow fpa accounts amount pid = ⟨cp, acc, none⟩ →
      9 ≤ accounts.length) ∧
    (∀ (fpa : Pubkey → Pubkey × Nat) (rent : Nat → Nat → Bool)
        (a0 a1 a2 a3 a4 : AccountInfo) (rest : List AccountInfo)
        (amount : Nat) (pid : Pubkey),
      (process_init_escrow fpa rent (a0 :: a1 :: a2 :: a3 :: a4 :: rest) amount pid).error
        = (process_init_escrow fpa rent [a0, a1, a2, a3, a4] amount pid).error ∧
      (process_init_escrow fpa rent (a0 :: a1 :: a2 :: a3 :: a4 :: rest) amount pid).cpis
        = (process_init_escrow fpa rent [a0, a1, a2, a3, a4] amount pid).cpis) ∧
    (∀ (fpa : Pubkey → Pubkey × Nat) (a0 a1 a2 a3 a4 a5 a6 a7 a8 : AccountInfo)
        (rest : List AccountInfo) (amount : Nat) (pid : Pubkey),
      (process_exchange_escrow fpa
          (a0 :: a1 :: a2 :: a3 :: a4 :: a5 :: a6 :: a7 :: a8 :: rest) amount pid).error
        = (process_exchange_escrow fpa
          [a0, a1, a2, a3, a4, a5, a6, a7, a8] amount pid).error ∧
      (process_exchange_escrow fpa
          (a0 :: a1 :: a2 :: a3 :: a4 :: a5 :: a6 :: a7 :: a8 :: rest) amount pid).cpis
        = (process_exchange_escrow fpa
          [a0, a1, a2, a3, a4, a5, a6, a7, a8] amount pid).cpis) := by
  refine ⟨?_, ?_, ?_, ?_⟩
  · intro fpa rent accounts amount pid cp acc h
    obtain ⟨a0, a1, a2, a3, a4, tl4, r, hacc, -⟩ :=
      init_ok_inv fpa rent accounts amount pid cp acc h
    subst hacc
    simp [List.length_cons]
  · intro fpa accounts amount pid cp acc h
    by_contra hlt
    push_neg at hlt
    rw [exchange_short fpa accounts amount pid hlt] at h
    simp at h
  · intro fpa rent a0 a1 a2 a3 a4 rest amount pid
    exact init_tail_irrelevant fpa rent a0 a1 a2 a3 a4 rest [] amount pid
  · intro fpa a0 a1 a2 a3 a4 a5 a6 a7 a8 rest amount pid
    exact exchange_tail_irrelevant fpa a0 a1 a2 a3 a4 a5 a6 a7 a8 rest [] amount pid

/-- C8 witness: the concrete five-account InitEscrow success and the
concrete nine-account Exchange success meet the length bounds. -/
theorem C8_witness :
    5 ≤ ([b0, b1, b2, b3, b4] : List AccountInfo).length ∧
    9 ≤ exAccounts.length := by
  have h1 : process_init_escrow fpa0 rent0 [b0, b1, b2, b3, b4] 42 9
    = ⟨[CpiRequest.setAuthority 17 11 77 10],
       [b0, b1, b2,
        { b3 with data := .raw (Escrow.encode ⟨true, 10, 11, 12, 42⟩) }, b4],
       none⟩ := by decide
  have h2 : process_exchange_escrow fpa0 exAccounts 100 9
    = ⟨[CpiRequest.transfer 17 21 15 20 50,
        CpiRequest.transfer 17 13 22 77 100,
        CpiRequest.closeAccount 17 13 14 77],
       [c0, c1, c2, c3, { c4 with lamports := 1050 }, c5,
        { c6 with lamports := 0, data := .raw [] }, c7, c8], none⟩ := by decide
  exact ⟨C8_account_counts.1 fpa0 rent0 _ 42 9 _ _ h1,
    C8_account_counts.2.1 fpa0 exAccounts 100 9 _ _ h2⟩

/-- C9: Exchange reads all nine supplied accounts before validating
anything — any shorter account list fails with the missing-account error
whatever else is wrong, and the taker signer check only fires once all
nine accounts are present. -/
theorem C9_reads_nine_before_validation :
    (∀ (fpa : Pubkey → Pubkey × Nat) (accounts : List AccountInfo)
        (amount : Nat) (pid : Pubkey),
      accounts.length < 9 →
      process_exchange_escrow fpa accounts amount pid
        = ⟨[], accounts, some .NotEnoughAccountKeys⟩) ∧
    (∀ (fpa : Pubkey → Pubkey × Nat) (a0 a1 a2 a3 a4 a5 a6 a7 a8 : AccountInfo)
        (rest : List AccountInfo) (amount : Nat) (pid : Pubkey),
      a0.is_signer = false →
      process_exchange_escrow fpa
          (a0 :: a1 :: a2 :: a3 :: a4 :: a5 :: a6 :: a7 :: a8 :: rest) amount pid
        = ⟨[], a0 :: a1 :: a2 :: a3 :: a4 :: a5 :: a6 :: a7 :: a8 :: rest,
            some .MissingRequiredSignature⟩) := by
  refine ⟨fun fpa accounts amount pid h => exchange_short fpa accounts amount pid h, ?_⟩
  intro fpa a0 a1 a2 a3 a4 a5 a6 a7 a8 rest amount pid h0
  simp [process_exchange_escrow, h0]

/-- C9 witness: with only eight accounts and a non-signing taker the error
is the missing-account one, not the signature one; with nine accounts and
the same taker it is the signature one. -/
theorem C9_witness :
    process_exchange_escrow fpa0 [c0n, c1, c2, c3, c4, c5, c6, c7] 7 9
      = ⟨[], [c0n, c1, c2, c3, c4, c5, c6, c7], some .NotEnoughAccountKeys⟩ ∧
    process_exchange_escrow fpa0 [c0n, c1, c2, c3, c4, c5, c6, c7, c8] 100 9
      = ⟨[], [c0n, c1, c2, c3, c4, c5, c6, c7, c8],
          some .MissingRequiredSignature⟩ :=
  ⟨C9_reads_nine_before_validation.1 fpa0 [c0n, c1, c2, c3, c4, c5, c6, c7] 7 9
      (by decide),
   C9_reads_nine_before_validation.2 fpa0 c0n c1 c2 c3 c4 c5 c6 c7 c8 [] 100 9
      (by decide)⟩

/-- C10: InitEscrow performs no local validation on the temp custody
account — replacing it by any account with the same key but arbitrary
owner, data, balance and signer status leaves the error, the issued
requests and every later account (the record written back included)
unchanged: only its key is recorded and used as the reassignment target. -/
theorem C10_temp_account_unvalidated (fpa : Pubkey → Pubkey × Nat)
    (rent : Nat → Nat → Bool) (a0 a1 a1x a2 a3 : AccountInfo)
    (rest : List AccountInfo) (amount : Nat) (pid : Pubkey)
    (hk : a1.key = a1x.key) :
    (process_init_escrow fpa rent (a0 :: a1 :: a2 :: a3 :: rest) amount pid).error
      = (process_init_escrow fpa rent (a0 :: a1x :: a2 :: a3 :: rest) amount pid).error ∧
    (process_init_escrow fpa rent (a0 :: a1 :: a2 :: a3 :: rest) amount pid).cpis
      = (process_init_escrow fpa rent (a0 :: a1x :: a2 :: a3 :: rest) amount pid).cpis ∧
    (process_init_escrow fpa rent (a0 :: a1 :: a2 :: a3 :: rest) amount pid).accounts.drop 2
      = (process_init_escrow fpa rent (a0 :: a1x :: a2 :: a3 :: rest) amount pid).accounts.drop 2 := by
  cases h0 : a0.is_signer with
  | false => simp [process_init_escrow, h0]
  | true =>
  by_cases h2 : a2.owner = spl_token_id
  case neg => simp [process_init_escrow, h0, h2]
  cases h3 : rent a3.lamports a3.data.len with
  | false => simp [process_init_escrow, h0, h2, h3]
  | true =>
  cases hu : Escrow.unpack_unchecked a3.data with
  | error e => simp [process_init_escrow, h0, h2, h3, hu]
  | ok r =>
  cases hi : r.is_initialized with
  | true => simp [process_init_escrow, h0, h2, h3, hu, hi]
  | false =>
  have hpA := Escrow.pack_of_unpack
    ⟨true, a0.key, a1.key, a2.key, amount⟩ r a3.data hu
  have hpB := Escrow.pack_of_unpack
    ⟨true, a0.key, a1x.key, a2.key, amount⟩ r a3.data hu
  rcases rest with _ | ⟨a4, tl4⟩
  · simp [process_init_escrow, h0, h2, h3, hu, hi, hpA, hpB, hk]
  · simp [process_init_escrow, h0, h2, h3, hu, hi, hpA, hpB, hk]

/-- C10 witness fixture: the temp custody account with the same key 11 but
different owner, data, balance and signer status. -/
def b1x : AccountInfo := ⟨11, true, 55, 9, .raw [1, 2, 3]⟩

/-- C10 witness: swapping the concrete temp custody account for one sharing
only its key changes neither the error, nor the requests, nor the accounts
from the third position on. -/
theorem C10_witness :
    (process_init_escrow fpa0 rent0 [b0, b1, b2, b3, b4] 42 9).error
      = (process_init_escrow fpa0 rent0 [b0, b1x, b2, b3, b4] 42 9).error ∧
    (process_init_escrow fpa0 rent0 [b0, b1, b2, b3, b4] 42 9).cpis
      = (process_init_escrow fpa0 rent0 [b0, b1x, b2, b3, b4] 42 9).cpis ∧
    (process_init_escrow fpa0 rent0 [b0, b1, b2, b3, b4] 42 9).accounts.drop 2
      = (process_init_escrow fpa0 rent0 [b0, b1x, b2, b3, b4] 42 9).accounts.drop 2 :=
  C10_temp_account_unvalidated fpa0 rent0 b0 b1 b1x b2 b3 [b4] 42 9 (by decide)
